import Mathlib

/-!
Verification of the PhishNet backend (`backend/ai_model.py`, `backend/app.py`)
against its natural-language specification.

The heuristic risk engine `heuristics_analyze`, the refinement adapter wrapper
`call_llm_to_refine` and the top-level `analyze_text` are shallowly embedded as
pure Lean functions.  The two external capabilities used by the engine — the
`urlextract` URL scanner and the `tldextract` registrable-domain splitter — are
third-party libraries, not repository code; the engine is therefore
parameterised over them (`findUrls`, `extractDomain`), and small models of the
two libraries, written from the spec, are provided for concrete evaluation.
Python machine behaviour that the code relies on (the `int()` and `str()`
builtins, dict `.get`) is modelled explicitly below.
-/

/-- One entry of `suspicious_links`: mirrors the dict
`{"url": u, "domain": domain, "problem": problem}` built in
`heuristics_analyze` (ai_model.py line 113). -/
structure LinkFinding where
  url : String
  domain : String
  problem : Option String
deriving DecidableEq, Repr

/-- The dict returned by `heuristics_analyze`
(ai_model.py lines 133-138): risk label, clamped score, reasons, links. -/
structure Verdict where
  risk_level : String
  score : Int
  reasons : List String
  suspicious_links : List LinkFinding
deriving DecidableEq, Repr

/-- Python's substring test `pat in s`, on exploded strings:
does `pat` occur contiguously inside `s`? -/
def strOccurs : List Char → List Char → Bool
  | [], pat => pat.isEmpty
  | c :: s, pat => pat.isPrefixOf (c :: s) || strOccurs s pat

/-- Python's `pat in s` on strings (ai_model.py lines 65, 73, 104). -/
def containsStr (s pat : String) : Bool :=
  strOccurs s.toList pat.toList

/-- Modelled from Python semantics: the whitespace set stripped by
`str.strip()`. -/
def isPySpace (c : Char) : Bool :=
  c = ' ' || c = '\t' || c = '\n' || c = '\r' || c = '\x0b' || c = '\x0c'

/-- Modelled from Python semantics: `str.strip()` (ai_model.py line 57) —
drop leading and trailing whitespace. -/
def pyStrip (s : String) : String :=
  String.mk (((s.toList.dropWhile isPySpace).reverse.dropWhile isPySpace).reverse)

/-- Modelled from Python semantics: `str.lower()` (ai_model.py line 58);
`Char.toLower` covers the ASCII letters, which is all the keyword lists
use. -/
def pyLower (s : String) : String :=
  String.mk (s.toList.map Char.toLower)

/-- Modelled from Python semantics: `s.startswith(pre)`
(ai_model.py line 93). -/
def pyStartsWith (s pre : String) : Bool :=
  pre.toList.isPrefixOf s.toList

/-- Modelled from Python semantics: `sep.join(parts)`
(ai_model.py lines 67, 75). -/
def pyJoin (sep : String) : List String → String
  | [] => ""
  | [x] => x
  | x :: y :: xs => x ++ sep ++ pyJoin sep (y :: xs)

/-- Split a character list at whitespace, used by the URL-scanner model. -/
def wsSplit : List Char → List Char → List String
  | [], acc => [String.mk acc.reverse]
  | c :: cs, acc =>
    if isPySpace c then String.mk acc.reverse :: wsSplit cs []
    else wsSplit cs (c :: acc)

/-- Split a character list at `.` characters, used by the host/domain
models. -/
def dotSplit : List Char → List Char → List (List Char)
  | [], acc => [acc.reverse]
  | c :: cs, acc =>
    if c = '.' then acc.reverse :: dotSplit cs []
    else dotSplit cs (c :: acc)

/-- The fixed urgency phrase list (ai_model.py lines 63-64). -/
def urgent : List String :=
  ["urgent", "verify", "verify your", "immediately", "suspend", "suspended",
   "act now", "click below", "deadline", "your account has been suspended"]

/-- The fixed sensitive-topic phrase list (ai_model.py lines 71-72). -/
def sensitive : List String :=
  ["password", "credit card", "ssn", "social security", "account number",
   "acct number", "routing number", "bank number", "login", "verify identity"]

/-- The fixed shortener hostname list (ai_model.py line 90). -/
def shorteners : List String :=
  ["bit.ly", "tinyurl.com", "t.co", "goo.gl", "tiny.cc"]

/-- Helper for the regex `[A-Z]{6,}`: scanning the remaining characters with a
count of the current run of uppercase ASCII letters, is some run ≥ 6 long? -/
def capsRunAux : Nat → List Char → Bool
  | run, [] => 6 ≤ run
  | run, c :: cs =>
    6 ≤ run || (if c.isUpper then capsRunAux (run + 1) cs else capsRunAux 0 cs)

/-- `re.search(r"[A-Z]{6,}", t)` as a Boolean (ai_model.py line 83);
`Char.isUpper` is exactly the ASCII range `A`-`Z`. -/
def hasLongCaps (s : String) : Bool :=
  capsRunAux 0 s.toList

/-- Consume a maximal run of leading ASCII digits (`\d+` with its length). -/
def takeDigits : List Char → Nat × List Char
  | [] => (0, [])
  | c :: cs =>
    if c.isDigit then
      let r := takeDigits cs
      (r.1 + 1, r.2)
    else (0, c :: cs)

/-- The regex tail `\d+\.\d+\.\d+\.\d+` matched at the head of the list. -/
def matchQuad (cs : List Char) : Bool :=
  let r1 := takeDigits cs
  if r1.1 = 0 then false else
  match r1.2 with
  | '.' :: t1 =>
    let r2 := takeDigits t1
    if r2.1 = 0 then false else
    match r2.2 with
    | '.' :: t2 =>
      let r3 := takeDigits t2
      if r3.1 = 0 then false else
      match r3.2 with
      | '.' :: t3 => decide ((takeDigits t3).1 ≠ 0)
      | _ => false
    | _ => false
  | _ => false

/-- The regex `https?://\d+\.\d+\.\d+\.\d+` matched at the head of the list. -/
def matchSchemeIp : List Char → Bool
  | 'h' :: 't' :: 't' :: 'p' :: rest =>
    (match rest with
     | 's' :: ':' :: '/' :: '/' :: r => matchQuad r
     | ':' :: '/' :: '/' :: r => matchQuad r
     | _ => false)
  | _ => false

/-- `re.search`: the pattern matches at some position of the list. -/
def searchSchemeIp : List Char → Bool
  | [] => false
  | c :: cs => matchSchemeIp (c :: cs) || searchSchemeIp cs

/-- `u if u.startswith("http") else "http://" + u` (ai_model.py line 93). -/
def normalizeUrl (u : String) : String :=
  if pyStartsWith u "http" then u else "http://" ++ u

/-- The IP-literal check `re.search(r"https?://\d+\.\d+\.\d+\.\d+", u_norm)`
(ai_model.py line 99). -/
def ipFlag (uNorm : String) : Bool :=
  searchSchemeIp uNorm.toList

/-- The shortener check `any(s in u_norm for s in shorteners)`
(ai_model.py line 104). -/
def shortFlag (uNorm : String) : Bool :=
  shorteners.any (fun s => containsStr uNorm s)

/-- The hyphen check `domain and domain.count("-") >= 2` (ai_model.py line 109);
Python truthiness of a string is non-emptiness. -/
def hyphenFlag (domain : String) : Bool :=
  decide (domain ≠ "") && decide (2 ≤ domain.toList.count '-')

/-- The sequential build of the `problem` string (ai_model.py lines 96-111):
start at `None`, then for each fired flag either start the string or append
`"; "` plus the flag name, in the fixed order IP, shortener, hyphen. -/
def buildProblem (ip shortened hyph : Bool) : Option String :=
  let p1 : Option String := if ip then some "IP address used in URL" else none
  let p2 : Option String :=
    if shortened then
      match p1 with
      | some p => some (p ++ "; shortened URL")
      | none => some "shortened URL"
    else p1
  if hyph then
    match p2 with
    | some p => some (p ++ "; suspicious domain pattern")
    | none => some "suspicious domain pattern"
  else p2

/-- The score added by the three URL flags (20, 12 and 6; ai_model.py
lines 101, 106, 111). -/
def urlScore (ip shortened hyph : Bool) : Int :=
  (if ip then 20 else 0) + (if shortened then 12 else 0) + (if hyph then 6 else 0)

/-- The body of the URL loop (ai_model.py lines 91-113) for one extracted URL:
normalize, derive the domain via the (parameterised) `tldextract` capability,
compute the three flags, and return the LinkFinding plus the score added. -/
def inspectUrl (extractDomain : String → String) (u : String) :
    LinkFinding × Int :=
  let uNorm := normalizeUrl u
  let domain := extractDomain uNorm
  let ip := ipFlag uNorm
  let shortened := shortFlag uNorm
  let hyph := hyphenFlag domain
  (⟨u, domain, buildProblem ip shortened hyph⟩, urlScore ip shortened hyph)

/-- The label mapping (ai_model.py lines 126-131). -/
def riskLabel (score : Int) : String :=
  if 60 ≤ score then "Dangerous"
  else if 30 ≤ score then "Suspicious"
  else "Safe"

/-- The final assembly (ai_model.py lines 118-138): fill in the neutral reason
when no check fired, clamp the score with `max(0, min(100, score))`, and derive
the label from the clamped score. -/
def finalize (reasons : List String) (links : List LinkFinding) (score : Int) :
    Verdict :=
  let reasonsOut := if reasons.isEmpty then ["No strong heuristic flags found"] else reasons
  let clamped := max 0 (min 100 score)
  ⟨riskLabel clamped, clamped, reasonsOut, links⟩

/-- `heuristics_analyze` (ai_model.py lines 38-138), parameterised over the two
external library capabilities: `findUrls` models `extractor.find_urls` and
`extractDomain` models the `tldextract`-based domain derivation
`f"{ext.domain}.{ext.suffix}" if ext.suffix else ext.domain` applied to the
normalized URL.  Python's `if not text` is emptiness of the string. -/
def heuristics_analyze (findUrls : String → List String)
    (extractDomain : String → String) (text : String) : Verdict :=
  if text = "" then ⟨"Safe", 0, ["Empty message"], []⟩
  else
    let t := pyStrip text
    let tLow := pyLower t
    let foundUrgent := urgent.filter (fun w => containsStr tLow w)
    let reasons1 : List String :=
      if foundUrgent.isEmpty then []
      else ["Urgency language: " ++ pyJoin ", " (foundUrgent.take 5)]
    let score1 : Int := if foundUrgent.isEmpty then 0 else 28
    let foundSensitive := sensitive.filter (fun w => containsStr tLow w)
    let reasons2 : List String :=
      if foundSensitive.isEmpty then []
      else ["Requests sensitive info: " ++ pyJoin ", " (foundSensitive.take 5)]
    let score2 : Int := if foundSensitive.isEmpty then 0 else 30
    let exclam := t.toList.count '!'
    let reasons3 : List String :=
      if 2 ≤ exclam then ["Contains " ++ toString exclam ++ " exclamation mark(s)"] else []
    let score3 : Int := if 2 ≤ exclam then 6 else 0
    let reasons4 : List String :=
      if hasLongCaps t then ["Contains long ALL-CAPS word(s)"] else []
    let score4 : Int := if hasLongCaps t then 5 else 0
    let inspected := (findUrls t).map (inspectUrl extractDomain)
    let suspicious_links := inspected.map Prod.fst
    let scoreLinks : Int := (inspected.map Prod.snd).sum
    let reasons5 : List String :=
      if suspicious_links.isEmpty then []
      else ["Found " ++ toString suspicious_links.length ++ " link(s) — inspect domains"]
    finalize (reasons1 ++ reasons2 ++ reasons3 ++ reasons4 ++ reasons5)
      suspicious_links (score1 + score2 + score3 + score4 + scoreLinks)

/-- Modelled from the spec: the URL-token scanner provided by the external
`urlextract` library (spec §9 calls for "a minimal URL-token scanner").  This
model keeps the whitespace-separated tokens that carry an explicit `http://`
or `https://` scheme; it is exercised only on inputs whose URLs are
scheme-prefixed or that contain no URL at all. -/
def findUrlsModel (s : String) : List String :=
  (wsSplit s.toList []).filter
    (fun tok => pyStartsWith tok "http://" || pyStartsWith tok "https://")

/-- The part of a normalized URL after the first `://` (the whole string when
there is no scheme separator), cut at the first `/`, `:`, `?` or `#`: the host
portion, formalising the claim's phrase "the host portion of the normalized
URL". -/
def afterSchemeAux : List Char → Option (List Char)
  | [] => none
  | ':' :: '/' :: '/' :: rest => some rest
  | _ :: tail => afterSchemeAux tail

/-- The host portion of a URL string (see `afterSchemeAux`). -/
def hostOf (u : String) : String :=
  let cs := (afterSchemeAux u.toList).getD u.toList
  String.mk (cs.takeWhile (fun c => !(c = '/' || c = ':' || c = '?' || c = '#')))

/-- A non-empty all-digit label. -/
def isDigitLabel (cs : List Char) : Bool :=
  !cs.isEmpty && cs.all (fun c => c.isDigit)

/-- A dotted-quad IPv4 literal: exactly four dot-separated non-empty digit
runs, formalising the claim's phrase "dotted-quad IPv4 literal". -/
def isDottedQuad (h : String) : Bool :=
  match dotSplit h.toList [] with
  | [a, b, c, d] => isDigitLabel a && isDigitLabel b && isDigitLabel c && isDigitLabel d
  | _ => false

/-- Modelled from the spec: the registrable-domain derivation performed by the
external `tldextract` library plus the source's
`f"{ext.domain}.{ext.suffix}" if ext.suffix else ext.domain` (spec §4.1, §9).
`tldextract` returns an IPv4 host whole as the domain with an empty suffix;
for ordinary hosts the registrable domain is the last two dot-labels.  The
model suffices for the hosts the claims exercise. -/
def extractDomainModel (uNorm : String) : String :=
  let host := hostOf uNorm
  if isDottedQuad host then host
  else
    match (dotSplit host.toList []).reverse with
    | tld :: dom :: _ => String.mk (dom ++ '.' :: tld)
    | [x] => String.mk x
    | [] => ""

/-- JSON values, as produced by `json.loads` on the adapter's output;
numbers are modelled as integers (no claim exercises floats). -/
inductive Json where
  | null
  | bool (b : Bool)
  | num (n : Int)
  | str (s : String)
  | arr (l : List Json)
  | obj (l : List (String × Json))

/-- Lookup in a parsed JSON object / Python dict: `d[k]` is `some` the value
when the key is present (`json.loads` keeps one value per key). -/
def lookupJ : List (String × Json) → String → Option Json
  | [], _ => none
  | (k, v) :: rest, key => if k = key then some v else lookupJ rest key

/-- Digit-string value, for `pyInt`. -/
def digitsVal (cs : List Char) : Nat :=
  cs.foldl (fun acc c => acc * 10 + (c.toNat - 48)) 0

/-- A non-empty all-digit run parsed to a natural number, else `none`. -/
def parseNatDigits (cs : List Char) : Option Nat :=
  if cs.isEmpty then none
  else if cs.all (fun c => c.isDigit) then some (digitsVal cs) else none

/-- Modelled from Python semantics: `int()` applied to a string — surrounding
whitespace is stripped, an optional sign precedes a non-empty digit run;
anything else raises, modelled as `none` (digit-group underscores are not
modelled; no claim exercises them). -/
def pyIntOfStr (s : String) : Option Int :=
  match (pyStrip s).toList with
  | '+' :: ds => (parseNatDigits ds).map Int.ofNat
  | '-' :: ds => (parseNatDigits ds).map (fun n => -(Int.ofNat n))
  | ds => (parseNatDigits ds).map Int.ofNat

/-- Modelled from Python semantics: the `int()` builtin on a JSON value
(ai_model.py line 199); `none` is the raised `ValueError`/`TypeError`. -/
def pyInt : Json → Option Int
  | .num n => some n
  | .bool b => some (if b then 1 else 0)
  | .str s => pyIntOfStr s
  | _ => none

mutual
/-- Modelled from Python semantics: `repr` of a JSON-shaped value, used by
`str` for container elements.  String quoting is rendered with `\x27`
characters; exact escaping inside strings is not modelled (no claim
exercises it). -/
def pyRepr : Json → String
  | .null => "None"
  | .bool b => if b then "True" else "False"
  | .num n => toString n
  | .str s => "\x27" ++ s ++ "\x27"
  | .arr l => "[" ++ pyReprList l ++ "]"
  | .obj l => "\x7b" ++ pyReprObj l ++ "\x7d"

/-- Comma-joined `repr`s of a list's elements. -/
def pyReprList : List Json → String
  | [] => ""
  | [x] => pyRepr x
  | x :: y :: xs => pyRepr x ++ ", " ++ pyReprList (y :: xs)

/-- Comma-joined `repr`s of a dict's items. -/
def pyReprObj : List (String × Json) → String
  | [] => ""
  | [(k, v)] => "\x27" ++ k ++ "\x27: " ++ pyRepr v
  | (k, v) :: y :: xs => "\x27" ++ k ++ "\x27: " ++ pyRepr v ++ ", " ++ pyReprObj (y :: xs)
end

/-- Modelled from Python semantics: the `str()` builtin on a JSON value
(ai_model.py line 208). -/
def pyStr : Json → String
  | .str s => s
  | v => pyRepr v

/-- The outcome of the Gemini call and response processing (ai_model.py
lines 183-197), abstracted at the `json.loads` boundary: `failure` covers an
exception during the remote call, an output with no `{...}` region, and
unparseable JSON; `parsed` carries the fields of the successfully extracted
JSON object. -/
inductive AdapterOutcome where
  | failure
  | parsed (fields : List (String × Json))

/-- `call_llm_to_refine` (ai_model.py lines 171-218).  The environment and the
remote call are explicit parameters: `geminiKey`/`openaiKey` model the two
environment variables (empty string = unset, matching Python falsiness),
`hasGemini` models `_HAS_GEMINI`, and `outcome` the remote call (see
`AdapterOutcome`).  The dict flows are modelled on field lists; a `none`
lookup of a required base field is Python's raised `KeyError` and a `none`
`pyInt` is the raised `ValueError`, both caught by the `except` that returns
`heuristics_output`. -/
def call_llm_to_refine (geminiKey openaiKey : String) (hasGemini : Bool)
    (outcome : AdapterOutcome) (_text : String)
    (heuristics_output : List (String × Json)) : List (String × Json) :=
  let apiKey := if geminiKey = "" then openaiKey else geminiKey
  if apiKey = "" ∨ hasGemini = false then heuristics_output
  else
    match outcome with
    | .failure => heuristics_output
    | .parsed parsed =>
      match lookupJ heuristics_output "score" with
      | none => heuristics_output
      | some baseScore =>
        match pyInt ((lookupJ parsed "score").getD baseScore) with
        | none => heuristics_output
        | some parsedScore =>
          match lookupJ heuristics_output "risk_level" with
          | none => heuristics_output
          | some baseLevel =>
            let parsedLevel := (lookupJ parsed "risk_level").getD baseLevel
            let parsedReasons :=
              (lookupJ parsed "reasons").getD
                ((lookupJ heuristics_output "reasons").getD (.arr []))
            let parsedLinks :=
              (lookupJ parsed "suspicious_links").getD
                ((lookupJ heuristics_output "suspicious_links").getD (.arr []))
            [("risk_level", parsedLevel),
             ("score", .num (max 0 (min 100 parsedScore))),
             ("reasons",
               match parsedReasons with
               | .arr l => .arr l
               | v => .arr [.str (pyStr v)]),
             ("suspicious_links",
               match parsedLinks with
               | .arr l => .arr l
               | _ => (lookupJ heuristics_output "suspicious_links").getD (.arr []))]

/-- A `LinkFinding` as serialised into the heuristics dict. -/
def LinkFinding.toJson (l : LinkFinding) : Json :=
  .obj [("url", .str l.url), ("domain", .str l.domain),
        ("problem", match l.problem with | none => .null | some p => .str p)]

/-- The heuristics dict handed to `call_llm_to_refine`, as a field list. -/
def Verdict.toJsonFields (v : Verdict) : List (String × Json) :=
  [("risk_level", .str v.risk_level),
   ("score", .num v.score),
   ("reasons", .arr (v.reasons.map Json.str)),
   ("suspicious_links", .arr (v.suspicious_links.map LinkFinding.toJson))]

/-- `analyze_text` (ai_model.py lines 221-228): heuristics first, then the
best-effort refinement. -/
def analyze_text (findUrls : String → List String)
    (extractDomain : String → String) (geminiKey openaiKey : String)
    (hasGemini : Bool) (outcome : AdapterOutcome) (text : String) :
    List (String × Json) :=
  call_llm_to_refine geminiKey openaiKey hasGemini outcome text
    (Verdict.toJsonFields (heuristics_analyze findUrls extractDomain text))

/-- The `problem` string as the spec describes it: the semicolon-joined list
of the fired flag names, in the fixed order IP, shortener, hyphen-pattern,
and absent when no flag fired.  Written from the spec's words, to be compared
with the source's sequential `buildProblem`. -/
def specProblem (ip shortened hyph : Bool) : Option String :=
  let names :=
    (if ip then ["IP address used in URL"] else []) ++
    (if shortened then ["shortened URL"] else []) ++
    (if hyph then ["suspicious domain pattern"] else [])
  if names.isEmpty then none else some (pyJoin "; " names)

/- ========================  Theorems  ======================== -/

theorem buildProblem_eq_spec (ip shortened hyph : Bool) :
    buildProblem ip shortened hyph = specProblem ip shortened hyph ∧
    buildProblem ip shortened hyph ≠ some "" := by
  cases ip <;> cases shortened <;> cases hyph <;> exact ⟨rfl, by decide⟩

theorem riskLabel_spec (s : Int) :
    (60 ≤ s → riskLabel s = "Dangerous") ∧
    (30 ≤ s ∧ s < 60 → riskLabel s = "Suspicious") ∧
    (s < 30 → riskLabel s = "Safe") := by
  refine ⟨fun h => ?_, fun h => ?_, fun h => ?_⟩
  · simp [riskLabel, if_pos h]
  · rw [riskLabel, if_neg (by omega), if_pos h.1]
  · rw [riskLabel, if_neg (by omega), if_neg (by omega)]

theorem finalize_score_props (r : List String) (l : List LinkFinding) (s : Int) :
    0 ≤ (finalize r l s).score ∧ (finalize r l s).score ≤ 100 ∧
    (finalize r l s).risk_level = riskLabel (finalize r l s).score :=
  ⟨le_max_left 0 _, max_le (by norm_num) (min_le_left _ _), rfl⟩

theorem finalize_reasons_ne_nil (r : List String) (l : List LinkFinding) (s : Int) :
    (finalize r l s).reasons ≠ [] := by
  cases r with
  | nil => simp [finalize]
  | cons a as => simp [finalize]

theorem heuristics_analyze_cases (findUrls : String → List String)
    (extractDomain : String → String) (text : String) :
    heuristics_analyze findUrls extractDomain text =
      ⟨"Safe", 0, ["Empty message"], []⟩ ∨
    ∃ r l s, heuristics_analyze findUrls extractDomain text = finalize r l s := by
  unfold heuristics_analyze
  split
  · exact Or.inl rfl
  · exact Or.inr ⟨_, _, _, rfl⟩

/-- C2: for every input, the Verdict's score lies in `[0, 100]` and
`risk_level` is exactly the threshold function of the final clamped score
(`≥ 60` Dangerous, `[30, 60)` Suspicious, `< 30` Safe). -/
theorem c2_score_bounds_riskLabel (findUrls : String → List String)
    (extractDomain : String → String) (text : String) :
    0 ≤ (heuristics_analyze findUrls extractDomain text).score ∧
    (heuristics_analyze findUrls extractDomain text).score ≤ 100 ∧
    (60 ≤ (heuristics_analyze findUrls extractDomain text).score →
      (heuristics_analyze findUrls extractDomain text).risk_level = "Dangerous") ∧
    (30 ≤ (heuristics_analyze findUrls extractDomain text).score ∧
        (heuristics_analyze findUrls extractDomain text).score < 60 →
      (heuristics_analyze findUrls extractDomain text).risk_level = "Suspicious") ∧
    ((heuristics_analyze findUrls extractDomain text).score < 30 →
      (heuristics_analyze findUrls extractDomain text).risk_level = "Safe") := by
  have key : 0 ≤ (heuristics_analyze findUrls extractDomain text).score ∧
      (heuristics_analyze findUrls extractDomain text).score ≤ 100 ∧
      (heuristics_analyze findUrls extractDomain text).risk_level =
        riskLabel (heuristics_analyze findUrls extractDomain text).score := by
    rcases heuristics_analyze_cases findUrls extractDomain text with h | ⟨r, l, s, h⟩
    · rw [h]; exact ⟨by norm_num, by norm_num, by decide⟩
    · rw [h]; exact finalize_score_props _ _ _
  obtain ⟨h0, h100, hlab⟩ := key
  have hs := riskLabel_spec (heuristics_analyze findUrls extractDomain text).score
  exact ⟨h0, h100, fun h => hlab.trans (hs.1 h), fun h => hlab.trans (hs.2.1 h),
    fun h => hlab.trans (hs.2.2 h)⟩

/-- C6: the `reasons` sequence of the returned Verdict is never empty — the
empty-input branch returns `["Empty message"]` and otherwise the neutral
`"No strong heuristic flags found"` is filled in when no check fired. -/
theorem c6_reasons_nonempty (findUrls : String → List String)
    (extractDomain : String → String) (text : String) :
    (heuristics_analyze findUrls extractDomain text).reasons ≠ [] := by
  rcases heuristics_analyze_cases findUrls extractDomain text with h | ⟨r, l, s, h⟩
  · rw [h]; simp
  · rw [h]; exact finalize_reasons_ne_nil _ _ _

/-- C8: for every extracted URL, the `problem` field is `none` exactly when no
flag fired, and otherwise is the semicolon-joined list of the fired flag names
in the fixed order IP, shortener, hyphen-pattern; it is never the empty
string. -/
theorem c8_problem_structure (extractDomain : String → String) (u : String) :
    (inspectUrl extractDomain u).1.problem =
      specProblem (ipFlag (normalizeUrl u)) (shortFlag (normalizeUrl u))
        (hyphenFlag (extractDomain (normalizeUrl u))) ∧
    (inspectUrl extractDomain u).1.problem ≠ some "" :=
  buildProblem_eq_spec _ _ _

/-- C9: the engine is deterministic and free of hidden state — its output is a
function of the input text and of the (explicitly passed) behaviours of the
two extraction capabilities alone, so two invocations agreeing on those
coincide. -/
theorem c9_deterministic (findUrls findUrls2 : String → List String)
    (extractDomain extractDomain2 : String → String) (text : String)
    (hfe : ∀ s, findUrls s = findUrls2 s)
    (hfd : ∀ s, extractDomain s = extractDomain2 s) :
    heuristics_analyze findUrls extractDomain text =
      heuristics_analyze findUrls2 extractDomain2 text := by
  rw [funext hfe, funext hfd]

theorem c9_deterministic_witness :
    (∀ s, findUrlsModel s = findUrlsModel s) ∧
    (∀ s, extractDomainModel s = extractDomainModel s) ∧
    heuristics_analyze findUrlsModel extractDomainModel "Check your account now" =
      heuristics_analyze findUrlsModel extractDomainModel "Check your account now" :=
  ⟨fun _ => rfl, fun _ => rfl,
    c9_deterministic findUrlsModel findUrlsModel extractDomainModel
      extractDomainModel "Check your account now" (fun _ => rfl) (fun _ => rfl)⟩

/-- C1 counterexample: the whitespace-only input `"   "` does not short-circuit
— the code tests `not text`, which only the empty string satisfies — so the
engine runs its checks and returns the neutral reason, not `"Empty message"`. -/
theorem c1_whitespace_counterexample :
    heuristics_analyze findUrlsModel extractDomainModel "   " ≠
      ⟨"Safe", 0, ["Empty message"], []⟩ ∧
    heuristics_analyze findUrlsModel extractDomainModel "   " =
      ⟨"Safe", 0, ["No strong heuristic flags found"], []⟩ := by
  constructor
  · decide
  · decide

/-- C1 amended: only the empty string short-circuits to the
`["Empty message"]` Verdict; a non-empty whitespace-only input (its trim is
empty and the URL scanner finds nothing in the empty remainder) flows through
the checks and yields Safe, score 0, with the neutral reason. -/
theorem c1_empty_shortcircuit_amended (findUrls : String → List String)
    (extractDomain : String → String) (text : String)
    (hne : text ≠ "") (hws : pyStrip text = "") (hfe : findUrls "" = []) :
    heuristics_analyze findUrls extractDomain "" =
      ⟨"Safe", 0, ["Empty message"], []⟩ ∧
    heuristics_analyze findUrls extractDomain text =
      ⟨"Safe", 0, ["No strong heuristic flags found"], []⟩ := by
  constructor
  · rfl
  · unfold heuristics_analyze
    rw [if_neg hne]
    simp only [hws, hfe, List.map_nil]
    decide

theorem c1_amended_witness :
    ("   " : String) ≠ "" ∧ pyStrip "   " = "" ∧
    findUrlsModel "" = [] ∧
    (heuristics_analyze findUrlsModel extractDomainModel "" =
        ⟨"Safe", 0, ["Empty message"], []⟩ ∧
      heuristics_analyze findUrlsModel extractDomainModel "   " =
        ⟨"Safe", 0, ["No strong heuristic flags found"], []⟩) :=
  ⟨by decide, by decide, by decide,
    c1_empty_shortcircuit_amended findUrlsModel extractDomainModel "   "
      (by decide) (by decide) (by decide)⟩

/-- C3: whenever the Refinement Adapter is unavailable (no API key, or the
client library absent) or its call fails (exception, no JSON object in the
output, unparseable JSON), `call_llm_to_refine` returns the base verdict
unchanged; being a total function, the embedding also shows no exception
reaches the caller. -/
theorem c3_adapter_fallback (geminiKey openaiKey : String) (hasGemini : Bool)
    (outcome : AdapterOutcome) (text : String)
    (heur : List (String × Json))
    (h : (if geminiKey = "" then openaiKey else geminiKey) = "" ∨
      hasGemini = false ∨ outcome = AdapterOutcome.failure) :
    call_llm_to_refine geminiKey openaiKey hasGemini outcome text heur = heur := by
  unfold call_llm_to_refine
  rcases h with h | h | h
  · rw [if_pos (Or.inl h)]
  · rw [if_pos (Or.inr h)]
  · subst h
    by_cases hc : (if geminiKey = "" then openaiKey else geminiKey) = "" ∨
        hasGemini = false
    · rw [if_pos hc]
    · rw [if_neg hc]

theorem c3_adapter_fallback_witness :
    ((if ("" : String) = "" then ("" : String) else "") = "" ∨ true = false ∨
      AdapterOutcome.failure = AdapterOutcome.failure) ∧
    call_llm_to_refine "" "" true AdapterOutcome.failure "msg"
      [("risk_level", Json.str "Safe"), ("score", Json.num 0)] =
      [("risk_level", Json.str "Safe"), ("score", Json.num 0)] :=
  ⟨Or.inl (by decide),
    c3_adapter_fallback "" "" true AdapterOutcome.failure "msg"
      [("risk_level", Json.str "Safe"), ("score", Json.num 0)]
      (Or.inl (by decide))⟩

/-- C4 counterexample: the fields do not fall back independently — a
non-numeric `score` string makes `int()` raise, the `except` returns the whole
base dict, and the `risk_level` supplied by the adapter (`"Dangerous"`, while
the base says `"Safe"`) is discarded along with it. -/
theorem c4_nonnumeric_score_counterexample :
    call_llm_to_refine "key" "" true
      (AdapterOutcome.parsed
        [("score", Json.str "abc"), ("risk_level", Json.str "Dangerous")]) "msg"
      [("risk_level", Json.str "Safe"), ("score", Json.num 10),
       ("reasons", Json.arr [Json.str "r"]), ("suspicious_links", Json.arr [])] =
      [("risk_level", Json.str "Safe"), ("score", Json.num 10),
       ("reasons", Json.arr [Json.str "r"]), ("suspicious_links", Json.arr [])] ∧
    lookupJ [("score", Json.str "abc"), ("risk_level", Json.str "Dangerous")]
      "risk_level" = some (Json.str "Dangerous") ∧
    ("Safe" : String) ≠ "Dangerous" :=
  ⟨rfl, rfl, by decide⟩

/-- C5 counterexample: on the example input the final score is 83, not 78 —
the claim overlooks the `[A-Z]{6,}` formatting bonus (+5 for `"URGENT"`) and
that both `"password"` and `"login"` (in `/login`) match the sensitive list. -/
theorem c5_score83_counterexample :
    (heuristics_analyze findUrlsModel extractDomainModel
        "URGENT! Please verify your password immediately at http://192.168.1.5/login").score = 83 ∧
    ((83 : Int) ≠ 78) := by
  constructor
  · decide
  · decide

/-- C5 amended: on the example input the engine scores 83 (urgency +28,
sensitive-info +30 via `"password"` and `"login"`, ALL-CAPS word +5 for the
six-letter `"URGENT"`, and IP-literal URL +20), so `risk_level` is
Dangerous and `suspicious_links` holds exactly one entry whose problem is
`"IP address used in URL"` — under the recorded behaviour of the URL and
domain extractors on this input. -/
theorem c5_example_amended (findUrls : String → List String)
    (extractDomain : String → String)
    (hfe : findUrls
        (pyStrip "URGENT! Please verify your password immediately at http://192.168.1.5/login") =
        ["http://192.168.1.5/login"])
    (hfd : extractDomain (normalizeUrl "http://192.168.1.5/login") = "192.168.1.5") :
    heuristics_analyze findUrls extractDomain
        "URGENT! Please verify your password immediately at http://192.168.1.5/login" =
      ⟨"Dangerous", 83,
       ["Urgency language: urgent, verify, verify your, immediately",
        "Requests sensitive info: password, login",
        "Contains long ALL-CAPS word(s)",
        "Found 1 link(s) — inspect domains"],
       [⟨"http://192.168.1.5/login", "192.168.1.5", some "IP address used in URL"⟩]⟩ := by
  unfold heuristics_analyze
  rw [if_neg (by decide)]
  simp only [hfe, List.map_cons, List.map_nil, inspectUrl]
  rw [hfd]
  decide

theorem c5_example_witness :
    findUrlsModel
        (pyStrip "URGENT! Please verify your password immediately at http://192.168.1.5/login") =
      ["http://192.168.1.5/login"] ∧
    extractDomainModel (normalizeUrl "http://192.168.1.5/login") = "192.168.1.5" ∧
    heuristics_analyze findUrlsModel extractDomainModel
        "URGENT! Please verify your password immediately at http://192.168.1.5/login" =
      ⟨"Dangerous", 83,
       ["Urgency language: urgent, verify, verify your, immediately",
        "Requests sensitive info: password, login",
        "Contains long ALL-CAPS word(s)",
        "Found 1 link(s) — inspect domains"],
       [⟨"http://192.168.1.5/login", "192.168.1.5", some "IP address used in URL"⟩]⟩ :=
  ⟨by decide, by decide,
    c5_example_amended findUrlsModel extractDomainModel (by decide) (by decide)⟩

/-- C7 counterexample: the URL `http://1.2.3.4.evil.com` is flagged
`"IP address used in URL"` (+20) although its host portion
`1.2.3.4.evil.com` is not a dotted-quad IPv4 literal — the regex
`https?://\d+\.\d+\.\d+\.\d+` only inspects what immediately follows the
scheme. -/
theorem c7_ipflag_counterexample :
    (heuristics_analyze findUrlsModel extractDomainModel
        "Visit http://1.2.3.4.evil.com now").suspicious_links =
      [⟨"http://1.2.3.4.evil.com", "evil.com", some "IP address used in URL"⟩] ∧
    (heuristics_analyze findUrlsModel extractDomainModel
        "Visit http://1.2.3.4.evil.com now").score = 20 ∧
    isDottedQuad (hostOf (normalizeUrl "http://1.2.3.4.evil.com")) = false := by
  refine ⟨by decide, by decide, by decide⟩

theorem takeDigits_digits_append (ds t : List Char)
    (h : ∀ c ∈ ds, c.isDigit = true) :
    takeDigits (ds ++ '.' :: t) = (ds.length, '.' :: t) := by
  induction ds with
  | nil => rfl
  | cons c cs ih =>
    have hc : c.isDigit = true := h c (List.mem_cons_self c cs)
    have ihh := ih (fun x hx => h x (List.mem_cons_of_mem c hx))
    simp [takeDigits, hc, ihh]

theorem takeDigits_pos (c : Char) (cs : List Char) (h : c.isDigit = true) :
    (takeDigits (c :: cs)).1 ≠ 0 := by
  simp [takeDigits, h]

theorem matchQuad_of_quad (a b c d rest : List Char)
    (ha : a ≠ []) (hda : ∀ x ∈ a, x.isDigit = true)
    (hb : b ≠ []) (hdb : ∀ x ∈ b, x.isDigit = true)
    (hc : c ≠ []) (hdc : ∀ x ∈ c, x.isDigit = true)
    (hd : d ≠ []) (hdd : ∀ x ∈ d, x.isDigit = true) :
    matchQuad (a ++ '.' :: (b ++ '.' :: (c ++ '.' :: (d ++ rest)))) = true := by
  have hlast : (takeDigits (d ++ rest)).1 ≠ 0 := by
    cases d with
    | nil => exact absurd rfl hd
    | cons x xs => exact takeDigits_pos x (xs ++ rest) (hdd x (List.mem_cons_self x xs))
  simp only [matchQuad, takeDigits_digits_append a _ hda,
    takeDigits_digits_append b _ hdb, takeDigits_digits_append c _ hdc,
    List.length_eq_zero]
  simp [ha, hb, hc, hlast]

theorem matchSchemeIp_http (L : List Char) (h : matchQuad L = true) :
    matchSchemeIp ('h' :: 't' :: 't' :: 'p' :: ':' :: '/' :: '/' :: L) = true := by
  simpa [matchSchemeIp] using h

theorem matchSchemeIp_https (L : List Char) (h : matchQuad L = true) :
    matchSchemeIp ('h' :: 't' :: 't' :: 'p' :: 's' :: ':' :: '/' :: '/' :: L) = true := by
  simpa [matchSchemeIp] using h

theorem searchSchemeIp_head (l : List Char) (h : matchSchemeIp l = true) :
    searchSchemeIp l = true := by
  cases l with
  | nil => simp [matchSchemeIp] at h
  | cons c cs => simp [searchSchemeIp, h]

theorem buildProblem_ip_prefix (shortened hyph : Bool) :
    (match buildProblem true shortened hyph with
     | some p => pyStartsWith p "IP address used in URL"
     | none => false) = true := by
  cases shortened <;> cases hyph <;> decide

/-- C7 amended: the +20 IP flag fires whenever the normalized URL's scheme
prefix (`http://` or `https://`) is immediately followed by four non-empty
dot-separated digit runs — in particular for every dotted-quad IPv4 host —
but, as the counterexample shows, not only when the host itself is an IPv4
literal; the flagged URL's `problem` string then starts with
`"IP address used in URL"`. -/
theorem c7_ipflag_amended (extractDomain : String → String) (u : String)
    (a b c d rest : List Char)
    (ha : a ≠ []) (hda : ∀ x ∈ a, x.isDigit = true)
    (hb : b ≠ []) (hdb : ∀ x ∈ b, x.isDigit = true)
    (hc : c ≠ []) (hdc : ∀ x ∈ c, x.isDigit = true)
    (hd : d ≠ []) (hdd : ∀ x ∈ d, x.isDigit = true)
    (hu : u.toList =
        'h' :: 't' :: 't' :: 'p' :: ':' :: '/' :: '/' ::
          (a ++ '.' :: (b ++ '.' :: (c ++ '.' :: (d ++ rest)))) ∨
      u.toList =
        'h' :: 't' :: 't' :: 'p' :: 's' :: ':' :: '/' :: '/' ::
          (a ++ '.' :: (b ++ '.' :: (c ++ '.' :: (d ++ rest)))))
    (hnorm : normalizeUrl u = u) :
    ipFlag u = true ∧
    ∃ p, (inspectUrl extractDomain u).1.problem = some p ∧
      pyStartsWith p "IP address used in URL" = true := by
  have hquad := matchQuad_of_quad a b c d rest ha hda hb hdb hc hdc hd hdd
  have hip : ipFlag u = true := by
    unfold ipFlag
    rcases hu with hu | hu <;> rw [hu]
    · exact searchSchemeIp_head _ (matchSchemeIp_http _ hquad)
    · exact searchSchemeIp_head _ (matchSchemeIp_https _ hquad)
  refine ⟨hip, ?_⟩
  have hpr : (inspectUrl extractDomain u).1.problem =
      buildProblem (ipFlag (normalizeUrl u)) (shortFlag (normalizeUrl u))
        (hyphenFlag (extractDomain (normalizeUrl u))) := rfl
  rw [hpr, hnorm, hip]
  have hb2 := buildProblem_ip_prefix (shortFlag u) (hyphenFlag (extractDomain u))
  cases hcase : buildProblem true (shortFlag u) (hyphenFlag (extractDomain u)) with
  | none => rw [hcase] at hb2; exact absurd hb2 (by decide)
  | some p =>
    rw [hcase] at hb2
    exact ⟨p, rfl, hb2⟩

theorem c7_ipflag_witness :
    (['1'] : List Char) ≠ [] ∧ (∀ x ∈ (['1'] : List Char), x.isDigit = true) ∧
    ("http://1.1.1.1".toList =
        'h' :: 't' :: 't' :: 'p' :: ':' :: '/' :: '/' ::
          (['1'] ++ '.' :: (['1'] ++ '.' :: (['1'] ++ '.' :: (['1'] ++ ([] : List Char))))) ∨
      "http://1.1.1.1".toList =
        'h' :: 't' :: 't' :: 'p' :: 's' :: ':' :: '/' :: '/' ::
          (['1'] ++ '.' :: (['1'] ++ '.' :: (['1'] ++ '.' :: (['1'] ++ ([] : List Char)))))) ∧
    normalizeUrl "http://1.1.1.1" = "http://1.1.1.1" ∧
    (ipFlag "http://1.1.1.1" = true ∧
      ∃ p, (inspectUrl extractDomainModel "http://1.1.1.1").1.problem = some p ∧
        pyStartsWith p "IP address used in URL" = true) :=
  ⟨by decide, by decide, Or.inl (by decide), by decide,
    c7_ipflag_amended extractDomainModel "http://1.1.1.1" ['1'] ['1'] ['1'] ['1'] []
      (by decide) (by decide) (by decide) (by decide) (by decide) (by decide)
      (by decide) (by decide) (Or.inl (by decide)) (by decide)⟩

/-- C4 amended: the per-field fallbacks hold only once the score coercion
succeeds — if the adapter's `score` (or, failing that, the base score) is not
`int()`-coercible, the raised error is caught and the entire base dict is
returned, discarding every other adapter field; when the coercion yields `n`,
the result's score is `n` clamped to `[0, 100]`, `risk_level` falls back to
the base value exactly when missing, a non-sequence `reasons` is wrapped as a
one-element list of its string conversion, and a non-sequence
`suspicious_links` falls back to the base list.  In no case does an exception
reach the caller (the embedding is total). -/
theorem c4_field_fallback_amended (geminiKey openaiKey text : String)
    (p heur : List (String × Json)) (bs bl : Json) (rs ls : List Json)
    (hkey : ¬((if geminiKey = "" then openaiKey else geminiKey) = ""))
    (hbs : lookupJ heur "score" = some bs)
    (hbl : lookupJ heur "risk_level" = some bl)
    (hbr : lookupJ heur "reasons" = some (Json.arr rs))
    (hblk : lookupJ heur "suspicious_links" = some (Json.arr ls)) :
    (pyInt ((lookupJ p "score").getD bs) = none →
      call_llm_to_refine geminiKey openaiKey true (AdapterOutcome.parsed p) text heur = heur) ∧
    (∀ n, pyInt ((lookupJ p "score").getD bs) = some n →
      call_llm_to_refine geminiKey openaiKey true (AdapterOutcome.parsed p) text heur =
        [("risk_level", (lookupJ p "risk_level").getD bl),
         ("score", Json.num (max 0 (min 100 n))),
         ("reasons",
           match (lookupJ p "reasons").getD (Json.arr rs) with
           | Json.arr l => Json.arr l
           | v => Json.arr [Json.str (pyStr v)]),
         ("suspicious_links",
           match (lookupJ p "suspicious_links").getD (Json.arr ls) with
           | Json.arr l => Json.arr l
           | _ => Json.arr ls)]) := by
  have hcond : ¬((if geminiKey = "" then openaiKey else geminiKey) = "" ∨
      (true : Bool) = false) := by
    rintro (h | h)
    · exact hkey h
    · exact absurd h (by decide)
  constructor
  · intro hnone
    unfold call_llm_to_refine
    rw [if_neg hcond]
    simp only [hbs, hnone]
  · intro n hn
    unfold call_llm_to_refine
    rw [if_neg hcond]
    simp only [hbs, hn, hbl, hbr, hblk, Option.getD_some]

theorem c4_field_fallback_witness :
    ¬((if ("key" : String) = "" then ("" : String) else "key") = "") ∧
    lookupJ [("risk_level", Json.str "Safe"), ("score", Json.num 10),
        ("reasons", Json.arr [Json.str "r"]), ("suspicious_links", Json.arr [])]
      "score" = some (Json.num 10) ∧
    ((pyInt ((lookupJ [("reasons", Json.str "solo")] "score").getD (Json.num 10)) = none →
        call_llm_to_refine "key" "" true
          (AdapterOutcome.parsed [("reasons", Json.str "solo")]) "msg"
          [("risk_level", Json.str "Safe"), ("score", Json.num 10),
           ("reasons", Json.arr [Json.str "r"]), ("suspicious_links", Json.arr [])] =
          [("risk_level", Json.str "Safe"), ("score", Json.num 10),
           ("reasons", Json.arr [Json.str "r"]), ("suspicious_links", Json.arr [])]) ∧
      (∀ n, pyInt ((lookupJ [("reasons", Json.str "solo")] "score").getD (Json.num 10)) = some n →
        call_llm_to_refine "key" "" true
          (AdapterOutcome.parsed [("reasons", Json.str "solo")]) "msg"
          [("risk_level", Json.str "Safe"), ("score", Json.num 10),
           ("reasons", Json.arr [Json.str "r"]), ("suspicious_links", Json.arr [])] =
          [("risk_level", (lookupJ [("reasons", Json.str "solo")] "risk_level").getD (Json.str "Safe")),
           ("score", Json.num (max 0 (min 100 n))),
           ("reasons",
             match (lookupJ [("reasons", Json.str "solo")] "reasons").getD (Json.arr [Json.str "r"]) with
             | Json.arr l => Json.arr l
             | v => Json.arr [Json.str (pyStr v)]),
           ("suspicious_links",
             match (lookupJ [("reasons", Json.str "solo")] "suspicious_links").getD (Json.arr []) with
             | Json.arr l => Json.arr l
             | _ => Json.arr [])])) :=
  ⟨by decide, rfl,
    c4_field_fallback_amended "key" "" "msg" [("reasons", Json.str "solo")]
      [("risk_level", Json.str "Safe"), ("score", Json.num 10),
       ("reasons", Json.arr [Json.str "r"]), ("suspicious_links", Json.arr [])]
      (Json.num 10) (Json.str "Safe") [Json.str "r"] []
      (by decide) rfl rfl rfl rfl⟩

/-- C10 counterexample: an adapter response carrying `"risk_level"` is NOT
always passed through verbatim — here the response also carries the
non-numeric score `"oops"`, `int()` raises, and the base dict (risk_level
`"Safe"`) is returned instead of the supplied `"Dangerous"`. -/
theorem c10_risklevel_counterexample :
    call_llm_to_refine "key" "" true
      (AdapterOutcome.parsed
        [("risk_level", Json.str "Dangerous"), ("score", Json.str "oops")]) "msg"
      [("risk_level", Json.str "Safe"), ("score", Json.num 5),
       ("reasons", Json.arr []), ("suspicious_links", Json.arr [])] =
      [("risk_level", Json.str "Safe"), ("score", Json.num 5),
       ("reasons", Json.arr []), ("suspicious_links", Json.arr [])] ∧
    lookupJ [("risk_level", Json.str "Dangerous"), ("score", Json.str "oops")]
      "risk_level" = some (Json.str "Dangerous") ∧
    ("Safe" : String) ≠ "Dangerous" :=
  ⟨rfl, rfl, by decide⟩

/-- C10 amended: whenever the adapter's parsed response carries a
`"risk_level"` key and its score coercion succeeds — the `score` entry, or the
base's integer score when the entry is absent, is `int()`-coercible —
`analyze_text` returns that `risk_level` value verbatim — `v` is arbitrary,
so no membership or threshold-consistency validation is performed and the
final verdict can carry any string the adapter supplies. -/
theorem c10_risklevel_verbatim_amended (findUrls : String → List String)
    (extractDomain : String → String) (geminiKey openaiKey text : String)
    (p : List (String × Json)) (v : Json) (n : Int)
    (hkey : ¬((if geminiKey = "" then openaiKey else geminiKey) = ""))
    (hscore : pyInt ((lookupJ p "score").getD
        (Json.num (heuristics_analyze findUrls extractDomain text).score)) = some n)
    (hlevel : lookupJ p "risk_level" = some v) :
    lookupJ (analyze_text findUrls extractDomain geminiKey openaiKey true
        (AdapterOutcome.parsed p) text) "risk_level" = some v := by
  have hcond : ¬((if geminiKey = "" then openaiKey else geminiKey) = "" ∨
      (true : Bool) = false) := by
    rintro (h | h)
    · exact hkey h
    · exact absurd h (by decide)
  have hbs : lookupJ
      (Verdict.toJsonFields (heuristics_analyze findUrls extractDomain text)) "score" =
      some (Json.num (heuristics_analyze findUrls extractDomain text).score) := rfl
  have hbl : lookupJ
      (Verdict.toJsonFields (heuristics_analyze findUrls extractDomain text)) "risk_level" =
      some (Json.str (heuristics_analyze findUrls extractDomain text).risk_level) := rfl
  unfold analyze_text call_llm_to_refine
  rw [if_neg hcond]
  simp only [hbs, hbl, hscore, hlevel, Option.getD_some]
  simp [lookupJ]

theorem c10_risklevel_witness :
    ¬((if ("key" : String) = "" then ("" : String) else "key") = "") ∧
    pyInt ((lookupJ [("risk_level", Json.str "TotallyBogus"), ("score", Json.num 50)]
        "score").getD
        (Json.num (heuristics_analyze findUrlsModel extractDomainModel "hi").score)) =
      some 50 ∧
    lookupJ [("risk_level", Json.str "TotallyBogus"), ("score", Json.num 50)]
      "risk_level" = some (Json.str "TotallyBogus") ∧
    lookupJ (analyze_text findUrlsModel extractDomainModel "key" "" true
        (AdapterOutcome.parsed
          [("risk_level", Json.str "TotallyBogus"), ("score", Json.num 50)]) "hi")
      "risk_level" = some (Json.str "TotallyBogus") :=
  ⟨by decide, rfl, rfl,
    c10_risklevel_verbatim_amended findUrlsModel extractDomainModel "key" "" "hi"
      [("risk_level", Json.str "TotallyBogus"), ("score", Json.num 50)]
      (Json.str "TotallyBogus") 50 (by decide) rfl rfl⟩
